import Mathlib

/-!
Verification development for `DecisionTreeRegression.py` (Project-Ajaz).

The script is a PySpark pipeline: read a sensor-reading CSV and a
new-reading JSON, feature-engineer the UNIX `timestamp` column into
`month` / `day` / `hour_range`, assemble a `features` vector, split
into train and test, cross-validate a decision-tree regressor, persist
or load the best model under `./TrainedModels/DecisionTreeBestModels/<label>`,
and report predictions and feature importances.

We embed the dataframe operations shallowly: a dataframe is a list of
column names together with rows that are association lists from column
name to value.  Spark SQL values are modelled by `Value` (null, integer,
double — represented exactly as a rational —, string, and the assembled
feature vector).  Timestamp conversion assumes the session time zone is
UTC; the intermediate `yyyy-MM-dd HH:mm:ss` string produced by
`from_unixtime` and parsed back by `to_timestamp` is represented by the
seconds value it denotes (the format has second precision, so the
round-trip keeps exactly the seconds).  Printing (`show`, `printSchema`,
`describe`, log messages, stack traces) is not modelled.  Spark's lazy
evaluation is flattened: transformations are evaluated where they are
issued.
-/

namespace DTR

/-- A Spark SQL value: null, integer, double (kept exact as a rational),
string, or an assembled feature vector. -/
inductive Value where
  | vNull : Value
  | vInt : Int → Value
  | vDouble : ℚ → Value
  | vStr : String → Value
  | vVec : List ℚ → Value
deriving DecidableEq

/-- A dataframe row: an association list from column name to value. -/
abbrev Row := List (String × Value)

/-- A dataframe: the schema (ordered column names) and the rows. -/
structure DataFrame where
  cols : List String
  rows : List Row
deriving DecidableEq

/-- Read column `c` of a row; a column reference that is absent behaves
as null here (Spark would raise, our theorems carry the membership
hypotheses instead). -/
def getCol (r : Row) (c : String) : Value :=
  (r.lookup c).getD Value.vNull

/-- Overwrite the binding of column `c` in a row (or append it). -/
def setCol : Row → String → Value → Row
  | [], c, v => [(c, v)]
  | (c', v') :: rest, c, v =>
    if c' = c then (c, v) :: rest else (c', v') :: setCol rest c v

/-- Remove the binding of column `n` from a row. -/
def rowDrop (n : String) (r : Row) : Row :=
  r.filter (fun p => p.1 != n)

/-- Models `df.withColumn(name, f)`: replace the column if it exists, else
append it at the end of the schema. -/
def withColumn (name : String) (f : Row → Value) (df : DataFrame) : DataFrame :=
  { cols := if name ∈ df.cols then df.cols else df.cols ++ [name],
    rows := df.rows.map (fun r => setCol r name (f r)) }

/-- Models `df.drop(name)`: remove the column from schema and rows. -/
def dropColumn (name : String) (df : DataFrame) : DataFrame :=
  { cols := df.cols.filter (fun c => c != name),
    rows := df.rows.map (rowDrop name) }

/-- Truncation of a rational toward zero (the semantics of casting a
double to an integral type). -/
def ratTrunc (q : ℚ) : Int :=
  Int.tdiv q.num q.den

/-- Models `from_unixtime(ts/1000, 'yyyy-MM-dd HH:mm:ss')`: the millisecond
timestamp is divided by 1000 (a double division whose result is then
cast to a long, i.e. truncated) and rendered as a second-precision
date-time string, which we represent by its seconds value. -/
def fromUnixtimeVal : Value → Value
  | Value.vInt ms => Value.vInt (Int.tdiv ms 1000)
  | Value.vDouble q => Value.vInt (ratTrunc (q / 1000))
  | _ => Value.vNull

/-- Models `to_timestamp('timestamp')`: parse the second-precision date-time
string back into a timestamp; on our representation this keeps the
seconds value. -/
def toTimestampVal : Value → Value
  | Value.vInt s => Value.vInt s
  | _ => Value.vNull

/-- Civil (month, day) of a day count since 1970-01-01, proleptic
Gregorian calendar. -/
def civilFromDays (z : Int) : Int × Int :=
  let z' : Int := z + 719468
  let era : Int := Int.fdiv z' 146097
  let doe : Int := z' - era * 146097
  let yoe : Int :=
    Int.fdiv (doe - Int.fdiv doe 1460 + Int.fdiv doe 36524 - Int.fdiv doe 146096) 365
  let doy : Int := doe - (365 * yoe + Int.fdiv yoe 4 - Int.fdiv yoe 100)
  let mp : Int := Int.fdiv (5 * doy + 2) 153
  let d : Int := doy - Int.fdiv (153 * mp + 2) 5 + 1
  let m : Int := if mp < 10 then mp + 3 else mp - 9
  (m, d)

/-- Models `month(timestamp2)` (UTC). -/
def monthVal : Value → Value
  | Value.vInt sec => Value.vInt (civilFromDays (Int.fdiv sec 86400)).1
  | _ => Value.vNull

/-- Models `dayofmonth(timestamp2)` (UTC). -/
def dayVal : Value → Value
  | Value.vInt sec => Value.vInt (civilFromDays (Int.fdiv sec 86400)).2
  | _ => Value.vNull

/-- Models `hour(timestamp2)` (UTC): seconds within the day divided by 3600. -/
def hourVal : Value → Value
  | Value.vInt sec => Value.vInt (Int.fdiv (Int.emod sec 86400) 3600)
  | _ => Value.vNull

/-- Models `cast("integer")` applied to the hour column. -/
def castIntVal : Value → Value
  | Value.vInt n => Value.vInt n
  | Value.vDouble q => Value.vInt (ratTrunc q)
  | Value.vStr s => (s.toInt?.map Value.vInt).getD Value.vNull
  | _ => Value.vNull

/-- Models `F.floor(col / 3)`: integer divided by 3 as a double, floored. -/
def floorDiv3 : Value → Value
  | Value.vInt h => Value.vInt (Int.fdiv h 3)
  | _ => Value.vNull

/-- Models `filterTimestamp`: convert the UNIX millisecond `timestamp`, derive
`month`, `day` and `hour`, drop the raw timestamps, and bucket the hour
into `hour_range = floor(hour / 3)`. -/
def filterTimestamp (df : DataFrame) : DataFrame :=
  let df1 := withColumn "timestamp" (fun r => fromUnixtimeVal (getCol r "timestamp")) df
  let df2 := withColumn "timestamp2" (fun r => toTimestampVal (getCol r "timestamp")) df1
  let df3 := withColumn "month" (fun r => monthVal (getCol r "timestamp2")) df2
  let df4 := withColumn "day" (fun r => dayVal (getCol r "timestamp2")) df3
  let df5 := withColumn "hour" (fun r => hourVal (getCol r "timestamp2")) df4
  let df6 := dropColumn "timestamp" df5
  let df7 := dropColumn "timestamp2" df6
  let df8 := withColumn "hour_range" (fun r => floorDiv3 (castIntVal (getCol r "hour"))) df7
  dropColumn "hour" df8

/-- The row-level effect of `filterTimestamp`. -/
def ftRow (r : Row) : Row :=
  let r1 := setCol r "timestamp" (fromUnixtimeVal (getCol r "timestamp"))
  let r2 := setCol r1 "timestamp2" (toTimestampVal (getCol r1 "timestamp"))
  let r3 := setCol r2 "month" (monthVal (getCol r2 "timestamp2"))
  let r4 := setCol r3 "day" (dayVal (getCol r3 "timestamp2"))
  let r5 := setCol r4 "hour" (hourVal (getCol r4 "timestamp2"))
  let r6 := rowDrop "timestamp" r5
  let r7 := rowDrop "timestamp2" r6
  let r8 := setCol r7 "hour_range" (floorDiv3 (castIntVal (getCol r7 "hour")))
  rowDrop "hour" r8

/-- The hour the script extracts from a raw `timestamp` value: the
composition of `from_unixtime`, `to_timestamp` and `hour`. -/
def extractedHour (v : Value) : Value :=
  hourVal (toTimestampVal (fromUnixtimeVal v))

theorem lookup_setCol_self (r : Row) (n : String) (v : Value) :
    (setCol r n v).lookup n = some v := by
  induction r with
  | nil => simp [setCol, List.lookup_cons]
  | cons p rest ih =>
    obtain ⟨c', v'⟩ := p
    by_cases h : c' = n
    · subst h
      simp [setCol, List.lookup_cons]
    · simp only [setCol, if_neg h, List.lookup_cons,
          beq_false_of_ne (fun e => h e.symm)]
      exact ih

theorem lookup_setCol_ne (r : Row) (n c : String) (v : Value) (h : c ≠ n) :
    (setCol r n v).lookup c = r.lookup c := by
  induction r with
  | nil => simp [setCol, List.lookup_cons, beq_false_of_ne h]
  | cons p rest ih =>
    obtain ⟨c', v'⟩ := p
    by_cases h' : c' = n
    · subst h'
      simp [setCol, List.lookup_cons, beq_false_of_ne h]
    · by_cases hc : c' = c
      · subst hc
        simp [setCol, if_neg h', List.lookup_cons]
      · simp only [setCol, if_neg h', List.lookup_cons,
            beq_false_of_ne (fun e => hc e.symm)]
        exact ih

theorem lookup_rowDrop_ne (r : Row) (n c : String) (h : c ≠ n) :
    (rowDrop n r).lookup c = r.lookup c := by
  induction r with
  | nil => rfl
  | cons p rest ih =>
    obtain ⟨c', v'⟩ := p
    by_cases h' : c' = n
    · subst h'
      simp only [rowDrop] at ih ⊢
      rw [List.filter_cons_of_neg (by simp), ih, List.lookup_cons, beq_false_of_ne h]
    · by_cases hc : c' = c
      · subst hc
        simp only [rowDrop] at ih ⊢
        rw [List.filter_cons_of_pos (by simp [bne_iff_ne, h'])]
        simp [List.lookup_cons]
      · simp only [rowDrop] at ih ⊢
        rw [List.filter_cons_of_pos (by simp [bne_iff_ne, h']), List.lookup_cons,
            beq_false_of_ne (fun e => hc e.symm), List.lookup_cons,
            beq_false_of_ne (fun e => hc e.symm)]
        exact ih

theorem getCol_setCol_self (r : Row) (n : String) (v : Value) :
    getCol (setCol r n v) n = v := by
  simp [getCol, lookup_setCol_self]

theorem getCol_setCol_ne (r : Row) (n c : String) (v : Value) (h : c ≠ n) :
    getCol (setCol r n v) c = getCol r c := by
  simp [getCol, lookup_setCol_ne r n c v h]

theorem getCol_rowDrop_ne (r : Row) (n c : String) (h : c ≠ n) :
    getCol (rowDrop n r) c = getCol r c := by
  simp [getCol, lookup_rowDrop_ne r n c h]

/-- A Python exception class, as far as the script can raise one. -/
inductive PyErr where
  | typeError : PyErr
  | valueError : PyErr
  | indexError : PyErr
  | attributeError : PyErr
  | analysisException : PyErr
  | sparkError : PyErr
deriving DecidableEq

/-- A broad `try ... except Exception` guard: the stack trace and the
static message are printed (not modelled) and the function falls
through, returning `None`. -/
def pyGuard {α : Type} (x : Except PyErr α) : Option α :=
  x.toOption

/-- Models `features.remove(label)`: remove the first occurrence, raising
`ValueError` when the value is absent (in `main` the label may be the
unset `None`, which equals no string). -/
def removeFirst (label : Option String) (features : List String) :
    Except PyErr (List String) :=
  match label with
  | some l =>
    if l ∈ features then Except.ok (features.erase l)
    else Except.error PyErr.valueError
  | none => Except.error PyErr.valueError

theorem withColumn_cols (name : String) (f : Row → Value) (df : DataFrame) :
    (withColumn name f df).cols
      = if name ∈ df.cols then df.cols else df.cols ++ [name] := rfl

theorem dropColumn_cols (name : String) (df : DataFrame) :
    (dropColumn name df).cols = df.cols.filter (fun c => c != name) := rfl

theorem filter_ne_of_not_mem (l : List String) (n : String) (h : n ∉ l) :
    l.filter (fun c => c != n) = l := by
  induction l with
  | nil => rfl
  | cons a t ih =>
    have hn : a ≠ n := fun e => h (e ▸ List.mem_cons_self a t)
    rw [List.filter_cons_of_pos (by simp [bne_iff_ne, hn]),
        ih (fun m => h (List.mem_cons_of_mem a m))]

theorem filterTimestamp_rows (df : DataFrame) :
    (filterTimestamp df).rows = df.rows.map ftRow := by
  simp only [filterTimestamp, withColumn, dropColumn, List.map_map]
  rfl

theorem getCol_ftRow_hour_range (r : Row) :
    getCol (ftRow r) "hour_range"
      = floorDiv3 (castIntVal (extractedHour (getCol r "timestamp"))) := by
  simp only [ftRow]
  rw [getCol_rowDrop_ne _ "hour" "hour_range" (by decide), getCol_setCol_self,
      getCol_rowDrop_ne _ "timestamp2" "hour" (by decide),
      getCol_rowDrop_ne _ "timestamp" "hour" (by decide),
      getCol_setCol_self,
      getCol_setCol_ne _ "day" "timestamp2" _ (by decide),
      getCol_setCol_ne _ "month" "timestamp2" _ (by decide),
      getCol_setCol_self, getCol_setCol_self]
  rfl

theorem getCol_ftRow_frame (r : Row) (c : String)
    (hts : c ≠ "timestamp") (h2 : c ≠ "timestamp2") (hm : c ≠ "month")
    (hd : c ≠ "day") (hh : c ≠ "hour") (hr : c ≠ "hour_range") :
    getCol (ftRow r) c = getCol r c := by
  simp only [ftRow]
  rw [getCol_rowDrop_ne _ "hour" c hh, getCol_setCol_ne _ "hour_range" c _ hr,
      getCol_rowDrop_ne _ "timestamp2" c h2, getCol_rowDrop_ne _ "timestamp" c hts,
      getCol_setCol_ne _ "hour" c _ hh, getCol_setCol_ne _ "day" c _ hd,
      getCol_setCol_ne _ "month" c _ hm, getCol_setCol_ne _ "timestamp2" c _ h2,
      getCol_setCol_ne _ "timestamp" c _ hts]

/-- C1: for every input row whose extracted hour `h` is an integer in
`[0, 23]`, `filterTimestamp` assigns the row a `hour_range` value equal
to `floor(h/3)`, which lies in `[0, 7]`. -/
theorem hour_range_bucket (df : DataFrame) (r : Row) (h : Int)
    (hrow : r ∈ df.rows)
    (hh : extractedHour (getCol r "timestamp") = Value.vInt h)
    (h0 : 0 ≤ h) (h23 : h ≤ 23) :
    ftRow r ∈ (filterTimestamp df).rows ∧
    getCol (ftRow r) "hour_range" = Value.vInt (Int.fdiv h 3) ∧
    0 ≤ Int.fdiv h 3 ∧ Int.fdiv h 3 ≤ 7 := by
  refine ⟨?_, ?_, ?_⟩
  · rw [filterTimestamp_rows]
    exact List.mem_map_of_mem _ hrow
  · rw [getCol_ftRow_hour_range, hh]
    rfl
  · constructor <;> (interval_cases h <;> decide)

def dfC1 : DataFrame :=
  ⟨["timestamp", "pm10"],
   [[("timestamp", Value.vInt 45000000), ("pm10", Value.vInt 30)]]⟩

/-- Witness for C1: a reading taken at 45 000 000 ms (12:30:00 UTC on
1970-01-01) has extracted hour 12 and lands in `hour_range` 4. -/
theorem hour_range_bucket_witness :
    ftRow [("timestamp", Value.vInt 45000000), ("pm10", Value.vInt 30)]
        ∈ (filterTimestamp dfC1).rows ∧
    getCol (ftRow [("timestamp", Value.vInt 45000000), ("pm10", Value.vInt 30)])
        "hour_range" = Value.vInt (Int.fdiv 12 3) ∧
    0 ≤ Int.fdiv 12 3 ∧ Int.fdiv 12 3 ≤ 7 :=
  hour_range_bucket dfC1 _ 12 (by decide) (by decide) (by decide) (by decide)

/-- C2: for a label that is a column of the filtered dataframe (whose
schema has no duplicate names), the feature list built in `main` is the
filtered dataframe's column list with the label removed, and the label
is not among the features handed to the `VectorAssembler`. -/
theorem features_omit_label (df : DataFrame) (label : String)
    (hmem : label ∈ (filterTimestamp df).cols)
    (hnd : (filterTimestamp df).cols.Nodup) :
    removeFirst (some label) (filterTimestamp df).cols
      = Except.ok ((filterTimestamp df).cols.erase label) ∧
    label ∉ (filterTimestamp df).cols.erase label := by
  refine ⟨by simp [removeFirst, hmem], ?_⟩
  intro hmem'
  exact ((List.Nodup.mem_erase_iff hnd).1 hmem').1 rfl

def dfC2 : DataFrame := ⟨["timestamp", "pm10"], []⟩

/-- Witness for C2 at a concrete two-column dataframe and label `pm10`. -/
theorem features_omit_label_witness :
    removeFirst (some "pm10") (filterTimestamp dfC2).cols
      = Except.ok ((filterTimestamp dfC2).cols.erase "pm10") ∧
    "pm10" ∉ (filterTimestamp dfC2).cols.erase "pm10" :=
  features_omit_label dfC2 "pm10" (by decide) (by decide)

def dfC9 : DataFrame :=
  ⟨["timestamp", "month"],
   [[("timestamp", Value.vInt 0), ("month", Value.vInt 5)]]⟩

/-- Counterexample to C9 as stated: on an input dataframe that already
has a `month` column, `filterTimestamp` overwrites (and does not leave
unchanged) that non-`timestamp` column — the stored value 5 becomes the
derived month 1. -/
theorem filterTimestamp_overwrites_month :
    (filterTimestamp dfC9).rows.map (fun r => getCol r "month")
      = [Value.vInt 1] ∧
    dfC9.rows.map (fun r => getCol r "month") = [Value.vInt 5] ∧
    Value.vInt 1 ≠ Value.vInt 5 :=
  ⟨rfl, rfl, by decide⟩

/-- C9 (amended): when the input has a `timestamp` column and none of
the derived names `timestamp2`, `month`, `day`, `hour`, `hour_range`,
`filterTimestamp` leaves every other column's values unchanged and its
schema is the input schema minus `timestamp` plus `month`, `day`,
`hour_range` appended. -/
theorem filterTimestamp_frame (df : DataFrame)
    (hts : "timestamp" ∈ df.cols) (h2 : "timestamp2" ∉ df.cols)
    (hm : "month" ∉ df.cols) (hd : "day" ∉ df.cols)
    (hh : "hour" ∉ df.cols) (hr : "hour_range" ∉ df.cols) :
    (filterTimestamp df).cols
      = df.cols.filter (fun c => c != "timestamp") ++ ["month", "day", "hour_range"] ∧
    (filterTimestamp df).rows = df.rows.map ftRow ∧
    ∀ r : Row, ∀ c ∈ df.cols, c ≠ "timestamp" → getCol (ftRow r) c = getCol r c := by
  refine ⟨?_, filterTimestamp_rows df, ?_⟩
  · simp only [filterTimestamp, withColumn_cols, dropColumn_cols]
    rw [if_pos hts, if_neg h2,
        if_neg (show ¬ "month" ∈ df.cols ++ ["timestamp2"] by simp [hm]),
        if_neg (show ¬ "day" ∈ df.cols ++ ["timestamp2"] ++ ["month"] by simp [hd]),
        if_neg (show ¬ "hour" ∈ df.cols ++ ["timestamp2"] ++ ["month"] ++ ["day"] by
          simp [hh])]
    have hrf : "hour_range" ∉ df.cols.filter (fun c => c != "timestamp") :=
      fun m => hr (List.mem_of_mem_filter m)
    have hhf : "hour" ∉ df.cols.filter (fun c => c != "timestamp") :=
      fun m => hh (List.mem_of_mem_filter m)
    simp only [List.filter_append]
    rw [filter_ne_of_not_mem _ "timestamp2"
          (fun m => h2 (List.mem_of_mem_filter m))]
    simp only [show List.filter (fun c => c != "timestamp2")
          (List.filter (fun c => c != "timestamp") ["timestamp2"]) = ([] : List String)
          from rfl,
        show List.filter (fun c => c != "timestamp2")
          (List.filter (fun c => c != "timestamp") ["month"]) = ["month"] from rfl,
        show List.filter (fun c => c != "timestamp2")
          (List.filter (fun c => c != "timestamp") ["day"]) = ["day"] from rfl,
        show List.filter (fun c => c != "timestamp2")
          (List.filter (fun c => c != "timestamp") ["hour"]) = ["hour"] from rfl,
        List.append_nil]
    rw [if_neg (show ¬ "hour_range" ∈ df.cols.filter (fun c => c != "timestamp")
          ++ ["month"] ++ ["day"] ++ ["hour"] by simp [hrf])]
    simp only [List.filter_append]
    rw [filter_ne_of_not_mem _ "hour" hhf]
    simp
  · intro r c hc hcts
    exact getCol_ftRow_frame r c hcts
      (fun e => h2 (e ▸ hc)) (fun e => hm (e ▸ hc)) (fun e => hd (e ▸ hc))
      (fun e => hh (e ▸ hc)) (fun e => hr (e ▸ hc))

def dfC9w : DataFrame :=
  ⟨["timestamp", "pm10"],
   [[("timestamp", Value.vInt 45000000), ("pm10", Value.vInt 30)]]⟩

/-- Witness for the amended C9 at a concrete dataframe: the `pm10`
column keeps its value and the schema becomes
`["pm10", "month", "day", "hour_range"]`. -/
theorem filterTimestamp_frame_witness :
    (filterTimestamp dfC9w).cols
      = dfC9w.cols.filter (fun c => c != "timestamp") ++ ["month", "day", "hour_range"] ∧
    (filterTimestamp dfC9w).rows = dfC9w.rows.map ftRow ∧
    ∀ r : Row, ∀ c ∈ dfC9w.cols, c ≠ "timestamp" → getCol (ftRow r) c = getCol r c :=
  filterTimestamp_frame dfC9w (by decide) (by decide) (by decide) (by decide)
    (by decide) (by decide)

/-- A fitted decision tree: a leaf predicts a constant, an inner node
sends `x[f] ≤ thr` left and the rest right (continuous splits). -/
inductive DTree where
  | leaf : ℚ → DTree
  | node : Nat → ℚ → DTree → DTree → DTree
deriving DecidableEq

/-- A best model. It carries the fitted tree and the per-feature
importances the library reports for it. -/
structure Model where
  tree : DTree
  importances : List ℚ
deriving DecidableEq

def predictTree : DTree → List ℚ → ℚ
  | DTree.leaf p, _ => p
  | DTree.node f thr l r, x =>
    if x.getD f 0 ≤ thr then predictTree l x else predictTree r x

/-- The model's prediction on an assembled features vector. -/
def Model.predictVec (m : Model) (x : List ℚ) : ℚ :=
  predictTree m.tree x

/-- Modelled from the spec: model persistence. The serialization code
(`bestModel.write().overwrite().save(path)` and
`DecisionTreeRegressionModel.load(path)`) is ML-library code, not part
of this repository; per the spec the trained model is an "opaque
artifact persisted to a path named after the label", "overwritten on
retrain", so the artifact store is a path-keyed map and saving
overwrites the entry at the path. -/
def saveModel (path : String) (m : Model) (store : List (String × Model)) :
    List (String × Model) :=
  (path, m) :: store.filter (fun p => p.1 != path)

/-- Modelled from the spec: loading reads back the artifact stored at
the path (`Path.exists()` corresponds to the lookup succeeding). -/
def loadModel (path : String) (store : List (String × Model)) : Option Model :=
  store.lookup path

def modelPath (label : String) : String :=
  "./TrainedModels/DecisionTreeBestModels/" ++ label

/-- The cross-validator built by `decisionTreeRegression`: the grid and
fold constants from the script, plus the library's training behaviour
abstracted as `fitFn` (what `dtcv.fit(trainDf).bestModel` returns). -/
structure CrossValidatorSpec where
  maxDepthGrid : List Nat
  maxBinsGrid : List Nat
  numFolds : Nat
  parallelism : Nat
  fitFn : DataFrame → Model

structure RegressionEvaluator where
  predictionCol : String
  labelCol : String
  metricName : String
deriving DecidableEq

/-- Models `decisionTreeRegression(label)`: build the regressor, the parameter
grid, the RMSE evaluator and the 5-fold cross-validator, under the broad
guard. Construction only fails for an unset (`None`) label, which the
guard turns into `None`. -/
def decisionTreeRegression (label : Option String) (fitFn : DataFrame → Model) :
    Option (CrossValidatorSpec × RegressionEvaluator) :=
  pyGuard (match label with
    | none => Except.error PyErr.typeError
    | some l => Except.ok
        ({ maxDepthGrid := [2, 5, 10, 20, 30], maxBinsGrid := [10, 20, 40, 80, 100],
           numFolds := 5, parallelism := 3, fitFn := fitFn },
         { predictionCol := "prediction", labelCol := l, metricName := "rmse" }))

/-- Models `trainOrLoad`: if no artifact exists at
`./TrainedModels/DecisionTreeBestModels/<label>`, fit the
cross-validator on the train portion, take the best model and save it;
otherwise load the stored model. The artifact store is passed and
returned explicitly. -/
def trainOrLoad (label : String) (dtcv : CrossValidatorSpec) (trainDf : DataFrame)
    (store : List (String × Model)) : Option Model × List (String × Model) :=
  if (loadModel (modelPath label) store).isNone then
    let bestModel := dtcv.fitFn trainDf
    (some bestModel, saveModel (modelPath label) bestModel store)
  else
    (loadModel (modelPath label) store, store)

/-- C6: `trainOrLoad` trains and saves (the artifact then occupies the
label's path) exactly when no artifact exists at
`./TrainedModels/DecisionTreeBestModels/<label>`; otherwise it loads the
stored model without retraining and leaves the store unchanged. -/
theorem trainOrLoad_lifecycle (label : String) (dtcv : CrossValidatorSpec)
    (trainDf : DataFrame) (store : List (String × Model)) :
    (loadModel (modelPath label) store = none →
      trainOrLoad label dtcv trainDf store
        = (some (dtcv.fitFn trainDf),
           saveModel (modelPath label) (dtcv.fitFn trainDf) store) ∧
      loadModel (modelPath label)
          (saveModel (modelPath label) (dtcv.fitFn trainDf) store)
        = some (dtcv.fitFn trainDf)) ∧
    (∀ m : Model, loadModel (modelPath label) store = some m →
      trainOrLoad label dtcv trainDf store = (some m, store)) := by
  constructor
  · intro habs
    refine ⟨by simp [trainOrLoad, habs], ?_⟩
    simp [loadModel, saveModel, List.lookup_cons]
  · intro m hm
    simp [trainOrLoad, hm]

def model6 : Model := ⟨DTree.leaf 1, [1]⟩

def dtcv6 : CrossValidatorSpec :=
  ⟨[2, 5, 10, 20, 30], [10, 20, 40, 80, 100], 5, 3, fun _ => model6⟩

def dfTrain6 : DataFrame := ⟨["features", "pm10"], []⟩

/-- Witness for C6: on an empty store the model is trained and saved,
and the saved artifact answers the lookup. -/
theorem trainOrLoad_lifecycle_witness :
    trainOrLoad "pm10" dtcv6 dfTrain6 []
      = (some (dtcv6.fitFn dfTrain6),
         saveModel (modelPath "pm10") (dtcv6.fitFn dfTrain6) []) ∧
    loadModel (modelPath "pm10")
        (saveModel (modelPath "pm10") (dtcv6.fitFn dfTrain6) [])
      = some (dtcv6.fitFn dfTrain6) :=
  (trainOrLoad_lifecycle "pm10" dtcv6 dfTrain6 []).1 rfl

/-- C3: the best model that `trainOrLoad` trains and saves under
`./TrainedModels/DecisionTreeBestModels/<label>`, when loaded back from
that path, predicts identically to the freshly trained model on every
input features vector. -/
theorem saved_model_reload_predicts (label : String) (dtcv : CrossValidatorSpec)
    (trainDf : DataFrame) (store : List (String × Model))
    (habs : loadModel (modelPath label) store = none) :
    ∃ saved : Model,
      (trainOrLoad label dtcv trainDf store).1 = some saved ∧
      loadModel (modelPath label) (trainOrLoad label dtcv trainDf store).2
        = some saved ∧
      ∀ x : List ℚ, saved.predictVec x = (dtcv.fitFn trainDf).predictVec x := by
  refine ⟨dtcv.fitFn trainDf, ?_, ?_, fun x => rfl⟩
  · simp [trainOrLoad, habs]
  · have h : trainOrLoad label dtcv trainDf store
        = (some (dtcv.fitFn trainDf),
           saveModel (modelPath label) (dtcv.fitFn trainDf) store) := by
      simp [trainOrLoad, habs]
    rw [h]
    simp [loadModel, saveModel, List.lookup_cons]

def model3 : Model := ⟨DTree.node 0 10 (DTree.leaf 2) (DTree.leaf 5), [1, 0]⟩

def dtcv3 : CrossValidatorSpec :=
  ⟨[2, 5, 10, 20, 30], [10, 20, 40, 80, 100], 5, 3, fun _ => model3⟩

def dfTrain3 : DataFrame := ⟨["features", "pm10"], []⟩

/-- Witness for C3 on an empty store and a concrete one-split tree. -/
theorem saved_model_reload_predicts_witness :
    ∃ saved : Model,
      (trainOrLoad "pm10" dtcv3 dfTrain3 []).1 = some saved ∧
      loadModel (modelPath "pm10") (trainOrLoad "pm10" dtcv3 dfTrain3 []).2
        = some saved ∧
      ∀ x : List ℚ, saved.predictVec x = (dtcv3.fitFn dfTrain3).predictVec x :=
  saved_model_reload_predicts "pm10" dtcv3 dfTrain3 [] rfl

/-- Models `cast(DoubleType())` on a column value. Integer-literal strings are
parsed; other non-numeric values become null. -/
def castDoubleVal : Value → Value
  | Value.vInt n => Value.vDouble (n : ℚ)
  | Value.vDouble q => Value.vDouble q
  | Value.vStr s => ((s.toInt?).map (fun n => Value.vDouble (n : ℚ))).getD Value.vNull
  | _ => Value.vNull

/-- Models `na.fill(value=0.0, subset=[label])` on a label-column value. -/
def fillNaVal : Value → Value
  | Value.vNull => Value.vDouble 0
  | v => v

/-- Lines 36–37 of the script: the incoming new reading gets its label
column (`sys.argv[1]`) cast to double and then null-filled with 0.0. -/
def newReadingPrep (label : String) (nr : DataFrame) : DataFrame :=
  let c := withColumn label (fun r => castDoubleVal (getCol r label)) nr
  withColumn label (fun r => fillNaVal (getCol r label)) c

def Value.isDouble : Value → Bool
  | Value.vDouble _ => true
  | _ => false

theorem setCol_setCol (r : Row) (n : String) (a b : Value) :
    setCol (setCol r n a) n b = setCol r n b := by
  induction r with
  | nil => simp [setCol]
  | cons p rest ih =>
    obtain ⟨c', v'⟩ := p
    by_cases h : c' = n
    · subst h
      simp [setCol]
    · simp [setCol, h, ih]

theorem newReadingPrep_rows (label : String) (nr : DataFrame) :
    (newReadingPrep label nr).rows
      = nr.rows.map
          (fun r => setCol r label (fillNaVal (castDoubleVal (getCol r label)))) := by
  simp only [newReadingPrep, withColumn, List.map_map]
  refine List.map_congr_left (fun r _ => ?_)
  simp only [Function.comp_apply, getCol_setCol_self, setCol_setCol]

def nrC7 : DataFrame :=
  ⟨["temp", "pm10"], [[("temp", Value.vNull), ("pm10", Value.vNull)]]⟩

/-- Counterexample to C7 as stated: with label `pm10`, the null in the
non-label column `temp` of the new reading survives `initialize`'s
preparation — only the label column is null-filled. -/
theorem newReading_null_survives :
    (newReadingPrep "pm10" nrC7).rows.map (fun r => getCol r "temp")
      = [Value.vNull] ∧
    (newReadingPrep "pm10" nrC7).rows.map (fun r => getCol r "pm10")
      = [Value.vDouble 0] :=
  ⟨rfl, rfl⟩

/-- C7 (amended): `initialize` coerces only the label column of the new
reading: in every row that column ends up a (non-null) double, every
other column's value is untouched, and the schema is unchanged. -/
theorem newReadingPrep_label_only (nr : DataFrame) (label : String)
    (hc : label ∈ nr.cols) :
    (newReadingPrep label nr).cols = nr.cols ∧
    (newReadingPrep label nr).rows
      = nr.rows.map
          (fun r => setCol r label (fillNaVal (castDoubleVal (getCol r label)))) ∧
    (∀ v : Value, (fillNaVal (castDoubleVal v)).isDouble = true) ∧
    (∀ r : Row, ∀ c : String, c ≠ label →
      getCol (setCol r label (fillNaVal (castDoubleVal (getCol r label)))) c
        = getCol r c) := by
  refine ⟨?_, newReadingPrep_rows label nr, ?_, ?_⟩
  · simp only [newReadingPrep, withColumn_cols]
    rw [if_pos hc, if_pos hc]
  · intro v
    cases v with
    | vStr s => cases h : s.toInt? <;> simp [castDoubleVal, fillNaVal, Value.isDouble, h]
    | _ => simp [castDoubleVal, fillNaVal, Value.isDouble]
  · intro r c hne
    exact getCol_setCol_ne r label c _ hne

def nrC7w : DataFrame := ⟨["pm10"], [[("pm10", Value.vNull)]]⟩

/-- Witness for the amended C7 at a one-column new reading. -/
theorem newReadingPrep_label_only_witness :
    (newReadingPrep "pm10" nrC7w).cols = nrC7w.cols ∧
    (newReadingPrep "pm10" nrC7w).rows
      = nrC7w.rows.map
          (fun r => setCol r "pm10" (fillNaVal (castDoubleVal (getCol r "pm10")))) ∧
    (∀ v : Value, (fillNaVal (castDoubleVal v)).isDouble = true) ∧
    (∀ r : Row, ∀ c : String, c ≠ "pm10" →
      getCol (setCol r "pm10" (fillNaVal (castDoubleVal (getCol r "pm10")))) c
        = getCol r c) :=
  newReadingPrep_label_only nrC7w "pm10" (by decide)

/-- Models `randomSplit([0.7, 0.3])` row assignment: each row draws its
pseudo-random value (`rand`, fixed by the seed); draws below 70 % go to
the first portion, the rest to the second. -/
def splitRows (rand : Nat → Nat) : Nat → List Row → List Row × List Row
  | _, [] => ([], [])
  | i, r :: rs =>
    let s := splitRows rand (i + 1) rs
    if rand i % 100 < 70 then (r :: s.1, s.2) else (s.1, r :: s.2)

/-- Models `splitDataframe`: `dataDf.randomSplit([0.7, 0.3])`, returning the
train and the test portion. -/
def splitDataframe (df : DataFrame) (rand : Nat → Nat) : DataFrame × DataFrame :=
  let s := splitRows rand 0 df.rows
  (⟨df.cols, s.1⟩, ⟨df.cols, s.2⟩)

theorem splitRows_perm (rand : Nat → Nat) (i : Nat) (l : List Row) :
    ((splitRows rand i l).1 ++ (splitRows rand i l).2).Perm l := by
  induction l generalizing i with
  | nil => simp [splitRows]
  | cons r rs ih =>
    by_cases h : rand i % 100 < 70
    · simpa [splitRows, h] using (ih (i + 1)).cons r
    · simp only [splitRows, if_neg h]
      exact List.perm_middle.trans ((ih (i + 1)).cons r)

/-- C8: the two dataframes returned by `splitDataframe` partition the
input: together the portions are a permutation (multiset equal) of the
input rows, every row occurrence is counted exactly once across the two
portions, and both keep the input schema. -/
theorem splitDataframe_partition (df : DataFrame) (rand : Nat → Nat) :
    ((splitDataframe df rand).1.rows ++ (splitDataframe df rand).2.rows).Perm
        df.rows ∧
    (∀ r : Row,
      Multiset.count r ((splitDataframe df rand).1.rows : Multiset Row)
        + Multiset.count r ((splitDataframe df rand).2.rows : Multiset Row)
        = Multiset.count r (df.rows : Multiset Row)) ∧
    (splitDataframe df rand).1.cols = df.cols ∧
    (splitDataframe df rand).2.cols = df.cols := by
  refine ⟨splitRows_perm rand 0 df.rows, ?_, rfl, rfl⟩
  intro r
  have h2 : ((splitDataframe df rand).1.rows : Multiset Row)
      + ((splitDataframe df rand).2.rows : Multiset Row)
      = (df.rows : Multiset Row) := by
    rw [Multiset.coe_add]
    exact Multiset.coe_eq_coe.mpr (splitRows_perm rand 0 df.rows)
  simpa [Multiset.count_add] using congrArg (Multiset.count r) h2

/-- Raise `e` when the value is absent. -/
def orErr {α : Type} (o : Option α) (e : PyErr) : Except PyErr α :=
  match o with
  | some a => Except.ok a
  | none => Except.error e

/-- The runtime environment `main` runs in: the argument vector
(including the program name), the outcome of reading
`data/readings.csv` and `./data/newReading.json` (`none` when the read
raises), the artifact store on disk, the library's training behaviour,
and the pseudo-random draws behind `randomSplit`. -/
structure Env where
  argv : List String
  readingsDf : Option DataFrame
  newReadingDf : Option DataFrame
  store : List (String × Model)
  fitFn : DataFrame → Model
  rand : Nat → Nat

/-- Models `setLabel()`: read `sys.argv[1]` under the broad guard; with no
argument the `IndexError` is caught and `None` falls through. -/
def setLabel (argv : List String) : Option String :=
  pyGuard (match argv[1]? with
    | some s => Except.ok s
    | none => Except.error PyErr.indexError)

/-- Models `initialize()`: the contexts are created outside the guard (assumed
to succeed); under the guard the CSV and the JSON are read and the new
reading's label column (`sys.argv[1]`) is cast to double and
null-filled. A missing file, a missing argument, or a label that is not
a column of the new reading raises, and the guard returns `None`. -/
def initStep (env : Env) : Option (DataFrame × DataFrame) :=
  pyGuard (do
    let dataDf ← orErr env.readingsDf PyErr.analysisException
    let nr0 ← orErr env.newReadingDf PyErr.analysisException
    let lbl ← orErr env.argv[1]? PyErr.indexError
    if lbl ∈ nr0.cols then
      Except.ok (dataDf, newReadingPrep lbl nr0)
    else
      Except.error PyErr.analysisException)

/-- Models `cacheDataframe`: `cache()` plus schema and statistics printing — on
the data itself, the identity. -/
def cacheDataframe (df : DataFrame) : DataFrame :=
  df

/-- Models `VectorAssembler.transform` on one row: gather the feature columns
into the vector; a null or non-numeric entry raises. -/
def assembleVec (features : List String) (r : Row) : Except PyErr (List ℚ) :=
  features.mapM (fun f =>
    match getCol r f with
    | Value.vInt n => Except.ok (n : ℚ)
    | Value.vDouble q => Except.ok q
    | _ => Except.error PyErr.sparkError)

/-- Models `vectorizeDataframe`: add the assembled `features` column. -/
def vectorizeDataframe (df : DataFrame) (features : List String) :
    Except PyErr DataFrame := do
  let rs ← df.rows.mapM (fun r => do
    let v ← assembleVec features r
    pure (setCol r "features" (Value.vVec v)))
  pure { cols := if "features" ∈ df.cols then df.cols else df.cols ++ ["features"],
         rows := rs }

/-- Models `bestModel.transform(df)`: add the `prediction` column computed from
the `features` vector. -/
def modelTransform (m : Model) (df : DataFrame) : DataFrame :=
  withColumn "prediction"
    (fun r => match getCol r "features" with
      | Value.vVec x => Value.vDouble (m.predictVec x)
      | _ => Value.vNull) df

/-- Models `predictAndEvaluate`: under the broad guard, transform the test set
and the new reading with the best model; predictions, RMSE and the tree
are printed (not modelled). Called with `None` for the model — after a
failed training — the attribute access raises inside the guard and
`None` falls through. -/
def predictAndEvaluate (bestModel : Option Model) (label : String)
    (testDf : DataFrame) (dtEvaluator : RegressionEvaluator)
    (nrFilteredDf : DataFrame) : Option Unit :=
  pyGuard (match bestModel with
    | none => Except.error PyErr.attributeError
    | some m =>
      let _dtPredictions := modelTransform m testDf
      let _nrPredictions := modelTransform m nrFilteredDf
      Except.ok ())

/-- Models `featureImportance`: no guard. Zip the feature names with
`bestModel.featureImportances`; when `bestModel` is `None` (after a
failed training) the attribute access raises `AttributeError`, which
propagates to the caller. -/
def featureImportance (bestModel : Option Model) (features : List String) :
    Except PyErr (List (String × ℚ)) :=
  match bestModel with
  | none => Except.error PyErr.attributeError
  | some m => Except.ok (features.zip m.importances)

/-- Models `main()`: the pipeline, including the uncaught exceptions the glue
code itself raises: unpacking a `None` returned by a guarded function
raises `TypeError`, and `features.remove(label)` raises `ValueError`
when the label is absent (or `None`). The branch matching a `None`
label after a successful `remove` is unreachable. Spark's lazy errors
are flattened to the transformation site. -/
def mainEmbed (env : Env) : Except PyErr Unit :=
  match initStep env with
  | none => Except.error PyErr.typeError
  | some (dataDf, newReading) =>
    let label := setLabel env.argv
    let filteredDf := filterTimestamp dataDf
    match removeFirst label filteredDf.cols with
    | Except.error e => Except.error e
    | Except.ok features =>
      match label with
      | none => Except.error PyErr.typeError
      | some l =>
        let filteredDf := cacheDataframe filteredDf
        let nrFilteredDf := filterTimestamp newReading
        match vectorizeDataframe filteredDf features with
        | Except.error e => Except.error e
        | Except.ok filteredVec =>
          let s := splitDataframe filteredVec env.rand
          match vectorizeDataframe nrFilteredDf features with
          | Except.error e => Except.error e
          | Except.ok nrVec =>
            match decisionTreeRegression (some l) env.fitFn with
            | none => Except.error PyErr.typeError
            | some (dtcv, dtEvaluator) =>
              let tl := trainOrLoad l dtcv s.1 env.store
              match featureImportance tl.1 features with
              | Except.error e => Except.error e
              | Except.ok _ =>
                let _ := predictAndEvaluate tl.1 l s.2 dtEvaluator nrVec
                Except.ok ()

/-- Counterexample to C4 as stated: `featureImportance` has no exception
guard — called on the unset (`None`) model it propagates
`AttributeError` instead of printing a trace and returning `None`. -/
theorem featureImportance_propagates :
    featureImportance none ["month"] = Except.error PyErr.attributeError :=
  rfl

/-- C4 (amended): only part of the script's functions guard their
bodies — `setLabel` returns `None` when reading `sys.argv[1]` raises and
`initialize` returns `None` when reading the dataset raises — while
`featureImportance` (like `filterTimestamp`, `cacheDataframe`,
`vectorizeDataframe`, `splitDataframe` and `main`) has no guard, so its
exception propagates to the caller. -/
theorem guards_partial (argv : List String) (env : Env) (fs : List String)
    (hargv : argv[1]? = none) (hread : env.readingsDf = none) :
    setLabel argv = none ∧
    initStep env = none ∧
    featureImportance none fs = Except.error PyErr.attributeError := by
  refine ⟨?_, ?_, rfl⟩
  · simp [setLabel, pyGuard, hargv, Except.toOption]
  · simp [initStep, pyGuard, hread, orErr, Except.toOption, Except.bind, bind]

def defaultModel : Model := ⟨DTree.leaf 0, []⟩

def envC4 : Env :=
  ⟨["DecisionTreeRegression.py"], none, none, [], fun _ => defaultModel, fun _ => 0⟩

/-- Witness for the amended C4 with an empty argument vector and a
failed dataset read. -/
theorem guards_partial_witness :
    setLabel ["DecisionTreeRegression.py"] = none ∧
    initStep envC4 = none ∧
    featureImportance none ["month", "day"] = Except.error PyErr.attributeError :=
  guards_partial ["DecisionTreeRegression.py"] envC4 ["month", "day"] rfl rfl

def envC5 : Env :=
  ⟨["DecisionTreeRegression.py", "pm10"], none,
   some ⟨["pm10"], [[("pm10", Value.vInt 1)]]⟩, [],
   fun _ => defaultModel, fun _ => 0⟩

/-- Counterexample to C5 as stated: when reading `data/readings.csv`
fails, `initialize`'s guard returns `None`, and `main` does not proceed
with the remaining pipeline steps — unpacking the `None` raises an
uncaught `TypeError` and the run aborts at once. -/
theorem main_aborts_on_failed_read :
    mainEmbed envC5 = Except.error PyErr.typeError :=
  rfl

/-- C5 (amended): when a guarded step that `main` unpacks fails and
returns `None`, the failure does not cascade silently: `main` raises an
uncaught `TypeError` at the unpacking and the run aborts. -/
theorem main_typeerror_after_init_failure (env : Env)
    (h : initStep env = none) :
    mainEmbed env = Except.error PyErr.typeError := by
  simp [mainEmbed, h]

def envC5w : Env :=
  ⟨["DecisionTreeRegression.py", "co2"], none, none, [],
   fun _ => defaultModel, fun _ => 0⟩

/-- Witness for the amended C5: both reads fail, `initialize` returns
`None`, and `main` aborts with `TypeError`. -/
theorem main_typeerror_after_init_failure_witness :
    mainEmbed envC5w = Except.error PyErr.typeError :=
  main_typeerror_after_init_failure envC5w rfl

def dfReadings : DataFrame :=
  ⟨["timestamp", "pm10"],
   [[("timestamp", Value.vInt 45000000), ("pm10", Value.vInt 30)]]⟩

def nrReading : DataFrame :=
  ⟨["timestamp", "pm10"],
   [[("timestamp", Value.vInt 45000000), ("pm10", Value.vNull)]]⟩

def envC10 : Env :=
  ⟨["DecisionTreeRegression.py"], some dfReadings, some nrReading, [],
   fun _ => defaultModel, fun _ => 0⟩

/-- Counterexample to C10's `None`-label case: with no command-line
argument the run aborts inside `initialize`'s unpacking with
`TypeError` — `features.remove(label)` is never reached, so no
`ValueError` is raised. -/
theorem no_argument_aborts_with_typeerror :
    mainEmbed envC10 = Except.error PyErr.typeError ∧
    mainEmbed envC10 ≠ Except.error PyErr.valueError :=
  ⟨rfl, by
    simp only [show mainEmbed envC10 = Except.error PyErr.typeError from rfl]
    simp⟩

/-- C10 (amended): if `initialize` succeeded and the command-line label
is not among the filtered dataframe's columns (e.g. `timestamp`, which
`filterTimestamp` drops), `main` raises an uncaught `ValueError` at
`features.remove(label)` and the run aborts; when no argument is given
at all, the run aborts earlier, with `TypeError` on unpacking
`initialize`'s `None` (so `setLabel`'s `None` never reaches
`features.remove`). -/
theorem main_valueerror_on_missing_label :
    (∀ (env : Env) (dataDf newReading : DataFrame) (l : String),
      initStep env = some (dataDf, newReading) →
      env.argv[1]? = some l →
      l ∉ (filterTimestamp dataDf).cols →
      mainEmbed env = Except.error PyErr.valueError) ∧
    (∀ env : Env, env.argv[1]? = none →
      mainEmbed env = Except.error PyErr.typeError) := by
  constructor
  · intro env dataDf newReading l hinit hargv hnot
    have hlab : setLabel env.argv = some l := by
      simp [setLabel, pyGuard, hargv, Except.toOption]
    simp [mainEmbed, hinit, hlab, removeFirst, hnot]
  · intro env h
    have hinit : initStep env = none := by
      cases hr : env.readingsDf <;> cases hn : env.newReadingDf <;>
        simp [initStep, pyGuard, orErr, hr, hn, h, Except.toOption, Except.bind, bind]
    simp [mainEmbed, hinit]

def envC10w : Env :=
  ⟨["DecisionTreeRegression.py", "timestamp"], some dfReadings, some nrReading, [],
   fun _ => defaultModel, fun _ => 0⟩

/-- Witness for the amended C10: the label `timestamp` survives
`initialize` (it is a column of the new reading) but is dropped by
`filterTimestamp`, so `main` aborts with `ValueError` at
`features.remove`. -/
theorem main_valueerror_on_missing_label_witness :
    mainEmbed envC10w = Except.error PyErr.valueError :=
  main_valueerror_on_missing_label.1 envC10w dfReadings
    (newReadingPrep "timestamp" nrReading) "timestamp" rfl rfl (by decide)

end DTR
